import Mathlib

/-! # AD9656 driver (`drivers/adc/ad9656/ad9656.c`)

A shallow embedding of the register-access functions and of the bring-up,
test-mode and teardown operations of the AD9656 driver.

* Machine integers are natural numbers, reduced explicitly where the C code
  converts to a narrower type (`% 65536` for `uint16_t`, `% 256` for
  `uint8_t`, `% 4294967296` for `uint32_t`).  Status codes (`int32_t`) are
  integers.
* The platform layer (`malloc`, `free`, `spi_init`, `spi_remove`,
  `spi_write_and_read`, `mdelay`) is external to the driver.  Every call to it
  is recorded, in order, in the `trace` of the `World`; what a call returns is
  given by a `Platform`, whose answers may depend on the whole trace of calls
  made before.
* `printf` output goes to a separate `stdout` channel of the `World`.
* The macros of `ad9656.h` (register addresses, chip identity, test-mode and
  output-format codes) are not part of the sources at hand; they are the
  fields of `Consts`, over which every definition is parametric.
-/

namespace AD9656

/-! ## Data model -/

/-- Macros of `ad9656.h` used by `ad9656.c`. -/
structure Consts where
  AD9656_REG_CHIP_ID : Nat
  AD9656_CHIP_ID : Nat
  AD9656_SPI_CONFIG : Nat
  AD9656_REG_LINK_CONTROL : Nat
  AD9656_REG_JESD204B_MF_CTRL : Nat
  AD9656_REG_JESD204B_M_CTRL : Nat
  AD9656_REG_JESD204B_CSN_CONFIG : Nat
  AD9656_REG_JESD204B_SUBCLASS_CONFIG : Nat
  AD9656_REG_JESD204B_QUICK_CONFIG : Nat
  AD9656_REG_JESD204B_SCR_L : Nat
  AD9656_REG_JESD204B_LANE_RATE_CTRL : Nat
  AD9656_REG_JESD204B_PLL_LOCK_STATUS : Nat
  AD9656_REG_ADC_TEST_MODE : Nat
  AD9656_REG_OUTPUT_MODE : Nat
  AD9656_TEST_OFF : Nat
  AD9656_FORMAT_2S_COMPLEMENT : Nat
  AD9656_FORMAT_OFFSET_BINARY : Nat
deriving Repr, DecidableEq

/-- The device handle, `struct ad9656_dev`: it holds the SPI descriptor. -/
structure ad9656_dev where
  spi_desc : Nat
deriving Repr, DecidableEq

/-- The initialisation parameters, `struct ad9656_init_param`: the bus
connection parameters (not interpreted by the driver) and the lane rate. -/
structure ad9656_init_param where
  spi_init : Nat
  lane_rate_kbps : Nat
deriving Repr, DecidableEq

/-- A call from the driver to the platform layer, with its arguments.  For
`spi_write_and_read` the field `data` is the content of the buffer when the
call is made. -/
inductive Event where
  | malloc
  | free
  | spi_init (param : Nat)
  | spi_remove (desc : Nat)
  | spi_write_and_read (desc : Nat) (data : List Nat) (bytes_number : Nat)
  | mdelay (msecs : Nat)
deriving Repr, DecidableEq

/-- The `uint8_t buf[3]` as the transport leaves it after a transaction. -/
structure RxBuf where
  b0 : Fin 256
  b1 : Fin 256
  b2 : Fin 256
deriving Repr, DecidableEq

/-- What the platform layer answers.  Each answer is a function of the calls
made so far and of the arguments of the call:
`malloc` tells whether the allocation succeeds, `spi_init` gives the
descriptor it stores and its status, `spi_write_and_read` the buffer as it
stands after the transaction and its status, `spi_remove` its status. -/
structure Platform where
  malloc : List Event → Bool
  spi_init : List Event → Nat → Nat × Int
  spi_write_and_read : List Event → Nat → List Nat → Nat → RxBuf × Int
  spi_remove : List Event → Nat → Int

/-- The world outside the driver: the platform calls made so far, in order,
and the lines printed so far (format string and argument). -/
structure World where
  trace : List Event
  stdout : List (String × Option Nat)
deriving Repr, DecidableEq

/-- Record a platform call. -/
def World.log (w : World) (e : Event) : World :=
  { w with trace := w.trace ++ [e] }

/-- Record a call to `printf`. -/
def World.print (w : World) (fmt : String) (arg : Option Nat) : World :=
  { w with stdout := w.stdout ++ [(fmt, arg)] }

/-! ## Register access -/

/-- The frame of `ad9656_spi_read` (lines 63-65), for `reg_addr` a
`uint16_t`; each element is stored into a `uint8_t`. -/
def ad9656_spi_read_buf (reg_addr : Nat) : List Nat :=
  [(0x80 ||| (reg_addr >>> 8)) % 256, (reg_addr &&& 0xFF) % 256, 0x00]

/-- The frame of `ad9656_spi_write` (lines 90-92), for `reg_addr` a
`uint16_t` and `reg_data` a `uint8_t`. -/
def ad9656_spi_write_buf (reg_addr reg_data : Nat) : List Nat :=
  [(reg_addr >>> 8) % 256, (reg_addr &&& 0xFF) % 256, reg_data]

/-- The result of `ad9656_spi_read`: status, `*reg_data`, world. -/
structure ReadResult where
  ret : Int
  reg_data : Nat
  world : World

/-- The function `ad9656_spi_read`.  The argument is converted to the
`uint16_t` parameter. -/
def ad9656_spi_read (P : Platform) (dev : ad9656_dev) (reg_addr : Nat)
    (w : World) : ReadResult :=
  let reg_addr := reg_addr % 65536
  let buf := ad9656_spi_read_buf reg_addr
  let r := P.spi_write_and_read w.trace dev.spi_desc buf 3
  let w := w.log (Event.spi_write_and_read dev.spi_desc buf 3)
  { ret := r.2, reg_data := r.1.b2.val, world := w }

/-- The function `ad9656_spi_write`: status and world.  The arguments are
converted to the `uint16_t` and `uint8_t` parameters. -/
def ad9656_spi_write (P : Platform) (dev : ad9656_dev) (reg_addr reg_data : Nat)
    (w : World) : Int × World :=
  let reg_addr := reg_addr % 65536
  let reg_data := reg_data % 256
  let buf := ad9656_spi_write_buf reg_addr reg_data
  let r := P.spi_write_and_read w.trace dev.spi_desc buf 3
  let w := w.log (Event.spi_write_and_read dev.spi_desc buf 3)
  (r.2, w)

/-- The function `mdelay`, a platform call without result. -/
def mdelay (msecs : Nat) (w : World) : World :=
  w.log (Event.mdelay msecs)

/-! ## Test mode -/

/-- The function `ad9656_test`: status and world.  The selector is a
`uint32_t`. -/
def ad9656_test (C : Consts) (P : Platform) (dev : ad9656_dev) (test_mode : Nat)
    (w : World) : Int × World :=
  let test_mode := test_mode % 4294967296
  let w := (ad9656_spi_write P dev C.AD9656_REG_ADC_TEST_MODE test_mode w).2
  let w :=
    if test_mode = C.AD9656_TEST_OFF then
      (ad9656_spi_write P dev C.AD9656_REG_OUTPUT_MODE C.AD9656_FORMAT_2S_COMPLEMENT w).2
    else
      (ad9656_spi_write P dev C.AD9656_REG_OUTPUT_MODE C.AD9656_FORMAT_OFFSET_BINARY w).2
  (0, w)

/-! ## Bring-up -/

/-- The result of `ad9656_setup`: status, the content of the caller's
`*device` after the call, world. -/
structure SetupResult where
  ret : Int
  device : Option ad9656_dev
  world : World

/-- The function `ad9656_setup`.  The argument `device` is the content of the
caller's `*device` before the call. -/
def ad9656_setup (C : Consts) (P : Platform) (device : Option ad9656_dev)
    (init_param : ad9656_init_param) (w : World) : SetupResult :=
  let ok := P.malloc w.trace
  let w := w.log Event.malloc
  if ok = false then
    { ret := -1, device := device, world := w }
  else
    let s := P.spi_init w.trace init_param.spi_init
    let w := w.log (Event.spi_init init_param.spi_init)
    let dev : ad9656_dev := { spi_desc := s.1 }
    let ret := s.2
    let rd := ad9656_spi_read P dev C.AD9656_REG_CHIP_ID w
    let chip_id := rd.reg_data
    let w := rd.world
    if chip_id ≠ C.AD9656_CHIP_ID then
      let w := w.print "AD9656: Invalid CHIP ID (0x%x).\n" (some chip_id)
      { ret := -1, device := device, world := w }
    else
      let w := (ad9656_spi_write P dev C.AD9656_SPI_CONFIG 0x3C w).2
      let w := mdelay 250 w
      let w := (ad9656_spi_write P dev C.AD9656_REG_LINK_CONTROL 0x15 w).2
      let w := (ad9656_spi_write P dev C.AD9656_REG_JESD204B_MF_CTRL 0x1f w).2
      let w := (ad9656_spi_write P dev C.AD9656_REG_JESD204B_M_CTRL 0x03 w).2
      let w := (ad9656_spi_write P dev C.AD9656_REG_JESD204B_CSN_CONFIG 0x0d w).2
      let w := (ad9656_spi_write P dev C.AD9656_REG_JESD204B_SUBCLASS_CONFIG 0x2f w).2
      let w := (ad9656_spi_write P dev C.AD9656_REG_JESD204B_QUICK_CONFIG 0x44 w).2
      let w := (ad9656_spi_write P dev C.AD9656_REG_JESD204B_SCR_L 0x83 w).2
      let w :=
        if init_param.lane_rate_kbps < 2000000 then
          (ad9656_spi_write P dev C.AD9656_REG_JESD204B_LANE_RATE_CTRL 0x08 w).2
        else
          (ad9656_spi_write P dev C.AD9656_REG_JESD204B_LANE_RATE_CTRL 0x00 w).2
      let w := (ad9656_spi_write P dev C.AD9656_REG_LINK_CONTROL 0x14 w).2
      let w := mdelay 250 w
      let rd := ad9656_spi_read P dev C.AD9656_REG_JESD204B_PLL_LOCK_STATUS w
      let pll_stat := rd.reg_data
      let w := rd.world
      if pll_stat &&& 0x80 ≠ 0x80 then
        let w := w.print "AD9656: PLL is NOT locked!\n" none
        { ret := -1, device := some dev, world := w }
      else
        { ret := ret, device := some dev, world := w }

/-! ## Teardown -/

/-- The function `ad9656_remove`: status and world. -/
def ad9656_remove (P : Platform) (dev : ad9656_dev) (w : World) : Int × World :=
  let ret := P.spi_remove w.trace dev.spi_desc
  let w := w.log (Event.spi_remove dev.spi_desc)
  let w := w.log Event.free
  (ret, w)

/-! ## Observations on a run of the driver

The definitions of this section name the platform calls a run of the driver
makes and the bytes the transport answers, so that the theorems can speak of
them. -/

/-- The transaction `ad9656_spi_read` issues for the register `reg_addr`. -/
def read_event (dev : ad9656_dev) (reg_addr : Nat) : Event :=
  Event.spi_write_and_read dev.spi_desc (ad9656_spi_read_buf (reg_addr % 65536)) 3

/-- The transaction `ad9656_spi_write` issues for the register `reg_addr` and
the value `reg_data`. -/
def write_event (dev : ad9656_dev) (reg_addr reg_data : Nat) : Event :=
  Event.spi_write_and_read dev.spi_desc
    (ad9656_spi_write_buf (reg_addr % 65536) (reg_data % 256)) 3

/-- The handle `ad9656_setup` builds when the allocation succeeds: its
descriptor is the one `spi_init` stores. -/
def setup_dev (P : Platform) (init_param : ad9656_init_param) (w : World) :
    ad9656_dev :=
  { spi_desc := (P.spi_init (w.trace ++ [Event.malloc]) init_param.spi_init).1 }

/-- The status `spi_init` reports to `ad9656_setup`. -/
def setup_open_status (P : Platform) (init_param : ad9656_init_param)
    (w : World) : Int :=
  (P.spi_init (w.trace ++ [Event.malloc]) init_param.spi_init).2

/-- The platform calls of `ad9656_setup` up to the chip-identity read. -/
def setup_events_identity (C : Consts) (dev : ad9656_dev)
    (init_param : ad9656_init_param) : List Event :=
  [Event.malloc, Event.spi_init init_param.spi_init,
    read_event dev C.AD9656_REG_CHIP_ID]

/-- The byte the transport answers to the chip-identity read of
`ad9656_setup`. -/
def setup_chip_id (C : Consts) (P : Platform) (init_param : ad9656_init_param)
    (w : World) : Nat :=
  (P.spi_write_and_read (w.trace ++ [Event.malloc, Event.spi_init init_param.spi_init])
    (setup_dev P init_param w).spi_desc
    (ad9656_spi_read_buf (C.AD9656_REG_CHIP_ID % 65536)) 3).1.b2.val

/-- The platform calls of `ad9656_setup` after the chip-identity read and
before the lock-status read: the configuration sequence. -/
def setup_events_config (C : Consts) (dev : ad9656_dev)
    (init_param : ad9656_init_param) : List Event :=
  [write_event dev C.AD9656_SPI_CONFIG 0x3C,
    Event.mdelay 250,
    write_event dev C.AD9656_REG_LINK_CONTROL 0x15,
    write_event dev C.AD9656_REG_JESD204B_MF_CTRL 0x1F,
    write_event dev C.AD9656_REG_JESD204B_M_CTRL 0x03,
    write_event dev C.AD9656_REG_JESD204B_CSN_CONFIG 0x0D,
    write_event dev C.AD9656_REG_JESD204B_SUBCLASS_CONFIG 0x2F,
    write_event dev C.AD9656_REG_JESD204B_QUICK_CONFIG 0x44,
    write_event dev C.AD9656_REG_JESD204B_SCR_L 0x83,
    write_event dev C.AD9656_REG_JESD204B_LANE_RATE_CTRL
      (if init_param.lane_rate_kbps < 2000000 then 0x08 else 0x00),
    write_event dev C.AD9656_REG_LINK_CONTROL 0x14,
    Event.mdelay 250]

/-- The byte the transport answers to the lock-status read of
`ad9656_setup`. -/
def setup_pll_stat (C : Consts) (P : Platform) (init_param : ad9656_init_param)
    (w : World) : Nat :=
  (P.spi_write_and_read
    (w.trace ++ (setup_events_identity C (setup_dev P init_param w) init_param ++
      setup_events_config C (setup_dev P init_param w) init_param))
    (setup_dev P init_param w).spi_desc
    (ad9656_spi_read_buf (C.AD9656_REG_JESD204B_PLL_LOCK_STATUS % 65536)) 3).1.b2.val

/-- All the platform calls of a run of `ad9656_setup` that passes the
identity check. -/
def setup_events (C : Consts) (dev : ad9656_dev)
    (init_param : ad9656_init_param) : List Event :=
  setup_events_identity C dev init_param ++ setup_events_config C dev init_param ++
    [read_event dev C.AD9656_REG_JESD204B_PLL_LOCK_STATUS]

/-- Whether a platform call is a transaction whose first two bytes are those
of a write frame for the register `reg_addr`. -/
def is_write_to (reg_addr : Nat) : Event → Bool
  | Event.spi_write_and_read _ data _ =>
    data.take 2 == (ad9656_spi_write_buf (reg_addr % 65536) 0).take 2
  | _ => false

/-- The lane-rate register has a 15-bit address, different from the addresses
of the other registers `ad9656_setup` writes. -/
def lane_rate_reg_distinct (C : Consts) : Prop :=
  C.AD9656_REG_JESD204B_LANE_RATE_CTRL % 65536 ≤ 0x7FFF ∧
    ∀ r ∈ [C.AD9656_SPI_CONFIG, C.AD9656_REG_LINK_CONTROL,
        C.AD9656_REG_JESD204B_MF_CTRL, C.AD9656_REG_JESD204B_M_CTRL,
        C.AD9656_REG_JESD204B_CSN_CONFIG, C.AD9656_REG_JESD204B_SUBCLASS_CONFIG,
        C.AD9656_REG_JESD204B_QUICK_CONFIG, C.AD9656_REG_JESD204B_SCR_L],
      r % 65536 ≠ C.AD9656_REG_JESD204B_LANE_RATE_CTRL % 65536

/-- Whether a platform call is a delay. -/
def is_mdelay : Event → Bool
  | Event.mdelay _ => true
  | _ => false

instance (C : Consts) : Decidable (lane_rate_reg_distinct C) := by
  unfold lane_rate_reg_distinct
  infer_instance

/-! ## Decoding a frame -/

/-- The decoding of a 3-byte frame on a loopback transport, in the words of
the specification: the address is `((byte0 & 0x7F) << 8) | byte1`, the value
is `byte2`. -/
def decode_frame : List Nat → Option (Nat × Nat)
  | [b0, b1, b2] => some (((b0 &&& 0x7F) <<< 8) ||| b1, b2)
  | _ => none

/-! ## Instances used to exhibit the theorems at concrete inputs -/

/-- An assignment of the macros, for illustration. -/
def sampleConsts : Consts :=
  { AD9656_REG_CHIP_ID := 0x001
    AD9656_CHIP_ID := 0xC0
    AD9656_SPI_CONFIG := 0x000
    AD9656_REG_LINK_CONTROL := 0x05F
    AD9656_REG_JESD204B_MF_CTRL := 0x070
    AD9656_REG_JESD204B_M_CTRL := 0x071
    AD9656_REG_JESD204B_CSN_CONFIG := 0x072
    AD9656_REG_JESD204B_SUBCLASS_CONFIG := 0x073
    AD9656_REG_JESD204B_QUICK_CONFIG := 0x05E
    AD9656_REG_JESD204B_SCR_L := 0x06E
    AD9656_REG_JESD204B_LANE_RATE_CTRL := 0x021
    AD9656_REG_JESD204B_PLL_LOCK_STATUS := 0x00A
    AD9656_REG_ADC_TEST_MODE := 0x00D
    AD9656_REG_OUTPUT_MODE := 0x014
    AD9656_TEST_OFF := 0x00
    AD9656_FORMAT_2S_COMPLEMENT := 0x01
    AD9656_FORMAT_OFFSET_BINARY := 0x00 }

/-- A mock platform: allocation succeeds, the transport opens with descriptor
`7` and status `open_status`, a read of the chip-identity register yields
`chip_id`, a read of the lock-status register yields `pll_stat`, any other
transaction leaves zero in the last byte; every transaction reports
`xfer_status` and the close reports `close_status`. -/
def mockPlatform (C : Consts) (chip_id pll_stat : Fin 256)
    (open_status xfer_status close_status : Int) : Platform :=
  { malloc := fun _ => true
    spi_init := fun _ _ => (7, open_status)
    spi_write_and_read := fun _ _ data _ =>
      if data = ad9656_spi_read_buf (C.AD9656_REG_CHIP_ID % 65536) then
        ({ b0 := 0, b1 := 0, b2 := chip_id }, xfer_status)
      else if data = ad9656_spi_read_buf (C.AD9656_REG_JESD204B_PLL_LOCK_STATUS % 65536) then
        ({ b0 := 0, b1 := 0, b2 := pll_stat }, xfer_status)
      else
        ({ b0 := 0, b1 := 0, b2 := 0 }, xfer_status)
    spi_remove := fun _ _ => close_status }

/-- The world before any call. -/
def World.empty : World :=
  { trace := [], stdout := [] }

/-- A platform on which the allocation fails; its other answers are those of
the mock platform. -/
def mockPlatformNoMemory (C : Consts) : Platform :=
  { mockPlatform C 0xC0 0x80 0 0 0 with malloc := fun _ => false }

/-! ## Arithmetic of the frames -/

theorem shiftRight8_lt_128 {a : Nat} (ha : a ≤ 0x7FFF) : a >>> 8 < 128 := by
  rw [Nat.shiftRight_eq_div_pow]
  omega

theorem shiftRight8_lt_256 {a : Nat} (ha : a < 65536) : a >>> 8 < 256 := by
  rw [Nat.shiftRight_eq_div_pow]
  omega

theorem and_0xFF_eq_mod (a : Nat) : a &&& 0xFF = a % 256 :=
  Nat.and_pow_two_sub_one_eq_mod a 8

theorem or_0x80_lt_256 {x : Nat} (hx : x < 256) : 0x80 ||| x < 256 :=
  Nat.or_lt_two_pow (show 0x80 < 2 ^ 8 by decide) (show x < 2 ^ 8 from hx)

theorem read_buf_eq {a : Nat} (ha : a < 65536) :
    ad9656_spi_read_buf a = [0x80 ||| (a >>> 8), a &&& 0xFF, 0x00] := by
  have h1 : 0x80 ||| (a >>> 8) < 256 := or_0x80_lt_256 (shiftRight8_lt_256 ha)
  have h2 : a &&& 0xFF < 256 := by rw [and_0xFF_eq_mod]; omega
  simp [ad9656_spi_read_buf, Nat.mod_eq_of_lt h1, Nat.mod_eq_of_lt h2]

theorem write_buf_eq {a : Nat} (ha : a < 65536) (v : Nat) :
    ad9656_spi_write_buf a v = [a >>> 8, a &&& 0xFF, v] := by
  have h1 : a >>> 8 < 256 := shiftRight8_lt_256 ha
  have h2 : a &&& 0xFF < 256 := by rw [and_0xFF_eq_mod]; omega
  simp [ad9656_spi_write_buf, Nat.mod_eq_of_lt h1, Nat.mod_eq_of_lt h2]

/-! ## Register access: the frames on the wire -/

/-- C1: for a register address `a` in `0..0x7FFF`, `ad9656_spi_read` makes
exactly one platform call, a transaction of length 3 on the descriptor of the
handle with buffer `[0x80 | (a >> 8), a & 0xFF, 0x00]`; the register value it
hands back is byte 2 of the buffer as the transport left it and its result is
the status of the transport. -/
theorem ad9656_spi_read_contract (P : Platform) (dev : ad9656_dev) (a : Nat)
    (w : World) (ha : a ≤ 0x7FFF) :
    (ad9656_spi_read P dev a w).world.trace =
        w.trace ++ [Event.spi_write_and_read dev.spi_desc
          [0x80 ||| (a >>> 8), a &&& 0xFF, 0x00] 3] ∧
      (ad9656_spi_read P dev a w).reg_data =
        (P.spi_write_and_read w.trace dev.spi_desc
          [0x80 ||| (a >>> 8), a &&& 0xFF, 0x00] 3).1.b2.val ∧
      (ad9656_spi_read P dev a w).ret =
        (P.spi_write_and_read w.trace dev.spi_desc
          [0x80 ||| (a >>> 8), a &&& 0xFF, 0x00] 3).2 := by
  have hlt : a < 65536 := by omega
  have hb := read_buf_eq hlt
  simp [ad9656_spi_read, World.log, Nat.mod_eq_of_lt hlt, hb]

/-- C1 at a concrete input: address `0x123` on the mock platform. -/
theorem ad9656_spi_read_contract_witness :
    (0x123 ≤ 0x7FFF) ∧
    ((ad9656_spi_read (mockPlatform sampleConsts 0xC0 0x80 0 (-5) 0) ⟨7⟩ 0x123
        World.empty).world.trace =
        World.empty.trace ++ [Event.spi_write_and_read (ad9656_dev.mk 7).spi_desc
          [0x80 ||| (0x123 >>> 8), 0x123 &&& 0xFF, 0x00] 3] ∧
      (ad9656_spi_read (mockPlatform sampleConsts 0xC0 0x80 0 (-5) 0) ⟨7⟩ 0x123
        World.empty).reg_data =
        ((mockPlatform sampleConsts 0xC0 0x80 0 (-5) 0).spi_write_and_read
          World.empty.trace (ad9656_dev.mk 7).spi_desc
          [0x80 ||| (0x123 >>> 8), 0x123 &&& 0xFF, 0x00] 3).1.b2.val ∧
      (ad9656_spi_read (mockPlatform sampleConsts 0xC0 0x80 0 (-5) 0) ⟨7⟩ 0x123
        World.empty).ret =
        ((mockPlatform sampleConsts 0xC0 0x80 0 (-5) 0).spi_write_and_read
          World.empty.trace (ad9656_dev.mk 7).spi_desc
          [0x80 ||| (0x123 >>> 8), 0x123 &&& 0xFF, 0x00] 3).2) :=
  ⟨by decide, ad9656_spi_read_contract _ ⟨7⟩ 0x123 World.empty (by decide)⟩

/-- C2: for a register address `a` in `0..0x7FFF` and an 8-bit value `v`,
`ad9656_spi_write` makes exactly one platform call, a transaction of length 3
on the descriptor of the handle with buffer `[a >> 8, a & 0xFF, v]`, and its
result is the status of the transport. -/
theorem ad9656_spi_write_contract (P : Platform) (dev : ad9656_dev) (a v : Nat)
    (w : World) (ha : a ≤ 0x7FFF) (hv : v ≤ 0xFF) :
    (ad9656_spi_write P dev a v w).2.trace =
        w.trace ++ [Event.spi_write_and_read dev.spi_desc
          [a >>> 8, a &&& 0xFF, v] 3] ∧
      (ad9656_spi_write P dev a v w).1 =
        (P.spi_write_and_read w.trace dev.spi_desc [a >>> 8, a &&& 0xFF, v] 3).2 := by
  have hlt : a < 65536 := by omega
  have hvlt : v < 256 := by omega
  have hb := write_buf_eq hlt v
  simp [ad9656_spi_write, World.log, Nat.mod_eq_of_lt hlt, Nat.mod_eq_of_lt hvlt, hb]

/-- C2 at a concrete input: address `0x05F`, value `0x15`, on the mock
platform. -/
theorem ad9656_spi_write_contract_witness :
    (0x05F ≤ 0x7FFF) ∧ (0x15 ≤ 0xFF) ∧
    ((ad9656_spi_write (mockPlatform sampleConsts 0xC0 0x80 0 (-5) 0) ⟨7⟩ 0x05F 0x15
        World.empty).2.trace =
        World.empty.trace ++ [Event.spi_write_and_read (ad9656_dev.mk 7).spi_desc
          [0x05F >>> 8, 0x05F &&& 0xFF, 0x15] 3] ∧
      (ad9656_spi_write (mockPlatform sampleConsts 0xC0 0x80 0 (-5) 0) ⟨7⟩ 0x05F 0x15
        World.empty).1 =
        ((mockPlatform sampleConsts 0xC0 0x80 0 (-5) 0).spi_write_and_read
          World.empty.trace (ad9656_dev.mk 7).spi_desc
          [0x05F >>> 8, 0x05F &&& 0xFF, 0x15] 3).2) :=
  ⟨by decide, by decide,
    ad9656_spi_write_contract _ ⟨7⟩ 0x05F 0x15 World.empty (by decide) (by decide)⟩

theorem decode_write_buf {a : Nat} (ha : a ≤ 0x7FFF) (v : Nat) :
    decode_frame (ad9656_spi_write_buf a v) = some (a, v) := by
  have hlt : a < 65536 := by omega
  have h7 : a >>> 8 &&& 0x7F = a >>> 8 := by
    have h := Nat.and_pow_two_sub_one_eq_mod (a >>> 8) 7
    have hs := shiftRight8_lt_128 ha
    simp only [Nat.reducePow, Nat.add_one_sub_one] at h
    rw [h]
    exact Nat.mod_eq_of_lt hs
  have hlo : a &&& 0xFF < 2 ^ 8 := by rw [and_0xFF_eq_mod]; omega
  have hor := Nat.mul_add_lt_is_or hlo (a >>> 8)
  have hval : ((a >>> 8) <<< 8) ||| (a &&& 0xFF) = a := by
    rw [Nat.shiftLeft_eq, Nat.mul_comm, ← hor, and_0xFF_eq_mod, Nat.shiftRight_eq_div_pow]
    omega
  rw [write_buf_eq hlt]
  simp only [decode_frame, h7, hval]

/-- C3: for a register address `a` in `0..0x7FFF` and a value `v` in
`0..0xFF`, decoding the frame built by `ad9656_spi_write` gives back `a` and
`v`; hence two such pairs with the same frame are equal. -/
theorem write_frame_roundtrip (a v : Nat) (ha : a ≤ 0x7FFF) (_hv : v ≤ 0xFF) :
    decode_frame (ad9656_spi_write_buf a v) = some (a, v) ∧
      ∀ a2 v2 : Nat, a2 ≤ 0x7FFF → v2 ≤ 0xFF →
        ad9656_spi_write_buf a v = ad9656_spi_write_buf a2 v2 → a = a2 ∧ v = v2 := by
  refine ⟨decode_write_buf ha v, ?_⟩
  intro a2 v2 ha2 _ heq
  have h1 := decode_write_buf ha v
  have h2 := decode_write_buf ha2 v2
  rw [heq, h2] at h1
  simpa [eq_comm] using h1

/-- C3 at a concrete input: address `0x1234`, value `0xAB`. -/
theorem write_frame_roundtrip_witness :
    (0x1234 ≤ 0x7FFF) ∧ (0xAB ≤ 0xFF) ∧
    (decode_frame (ad9656_spi_write_buf 0x1234 0xAB) = some (0x1234, 0xAB) ∧
      ∀ a2 v2 : Nat, a2 ≤ 0x7FFF → v2 ≤ 0xFF →
        ad9656_spi_write_buf 0x1234 0xAB = ad9656_spi_write_buf a2 v2 →
          0x1234 = a2 ∧ 0xAB = v2) :=
  ⟨by decide, by decide, write_frame_roundtrip 0x1234 0xAB (by decide) (by decide)⟩

set_option maxRecDepth 100000 in
theorem or_0x80_high_bit :
    ∀ y : Nat, y < 256 → (0x80 ||| y) % 256 &&& 0x80 = 0x80 := by
  decide

set_option maxRecDepth 100000 in
theorem high_bit_clear_iff :
    ∀ y : Nat, y < 256 → (y % 256 &&& 0x80 = 0 ↔ y < 128) := by
  decide

/-- C4, as the claim states it, fails: for the address `0x8000`, which the
`uint16_t` parameter can hold, `ad9656_spi_write` puts the frame
`[0x80, 0x00, 0x00]` on the wire, and the high bit of its byte 0 is set. -/
theorem write_frame_high_bit_counterexample :
    (ad9656_spi_write (mockPlatform sampleConsts 0xC0 0x80 0 0 0) ⟨7⟩ 0x8000 0x00
        World.empty).2.trace = [Event.spi_write_and_read 7 [0x80, 0x00, 0x00] 3] ∧
      (ad9656_spi_write_buf (0x8000 % 65536) 0x00).headD 0 &&& 0x80 ≠ 0 := by
  decide

/-- C4, amended: for any value of the `uint16_t` parameter `reg_addr`, byte 0
of the frame of `ad9656_spi_read` has its high bit set, and byte 0 of the
frame of `ad9656_spi_write` has its high bit clear exactly when the address is
in `0..0x7FFF`. -/
theorem frame_high_bit (a v : Nat) :
    (ad9656_spi_read_buf (a % 65536)).headD 0 &&& 0x80 = 0x80 ∧
      ((ad9656_spi_write_buf (a % 65536) v).headD 0 &&& 0x80 = 0 ↔
        a % 65536 ≤ 0x7FFF) := by
  have hlt : a % 65536 < 65536 := Nat.mod_lt _ (by decide)
  have hs := shiftRight8_lt_256 hlt
  constructor
  · simp only [ad9656_spi_read_buf, List.headD_cons]
    exact or_0x80_high_bit _ hs
  · simp only [ad9656_spi_write_buf, List.headD_cons]
    rw [high_bit_clear_iff _ hs, Nat.shiftRight_eq_div_pow]
    omega

/-! ## Bring-up -/

theorem spi_write_world (P : Platform) (dev : ad9656_dev) (r v : Nat) (w : World) :
    (ad9656_spi_write P dev r v w).2 =
      { trace := w.trace ++ [write_event dev r v], stdout := w.stdout } :=
  rfl

theorem spi_read_world (P : Platform) (dev : ad9656_dev) (r : Nat) (w : World) :
    (ad9656_spi_read P dev r w).world =
      { trace := w.trace ++ [read_event dev r], stdout := w.stdout } :=
  rfl

theorem spi_read_reg_data (P : Platform) (dev : ad9656_dev) (r : Nat) (w : World) :
    (ad9656_spi_read P dev r w).reg_data =
      (P.spi_write_and_read w.trace dev.spi_desc
        (ad9656_spi_read_buf (r % 65536)) 3).1.b2.val :=
  rfl

/-- A run whose allocation fails. -/
theorem setup_alloc_fails (C : Consts) (P : Platform) (device : Option ad9656_dev)
    (ip : ad9656_init_param) (w : World) (hm : P.malloc w.trace = false) :
    ad9656_setup C P device ip w =
      { ret := -1, device := device,
        world := { trace := w.trace ++ [Event.malloc], stdout := w.stdout } } := by
  simp [ad9656_setup, hm, World.log]

/-- A run that fails the identity check. -/
theorem setup_identity_fails (C : Consts) (P : Platform) (device : Option ad9656_dev)
    (ip : ad9656_init_param) (w : World) (hm : P.malloc w.trace = true)
    (hid : setup_chip_id C P ip w ≠ C.AD9656_CHIP_ID) :
    ad9656_setup C P device ip w =
      { ret := -1, device := device,
        world :=
          { trace := w.trace ++ setup_events_identity C (setup_dev P ip w) ip,
            stdout := w.stdout ++
              [("AD9656: Invalid CHIP ID (0x%x).\n", some (setup_chip_id C P ip w))] } } := by
  simp only [setup_chip_id, setup_dev] at hid
  simp [ad9656_setup, hm, World.log, World.print, spi_read_world, spi_read_reg_data,
    setup_events_identity, setup_chip_id, setup_dev, hid]

/-- A run that passes the identity check. -/
theorem setup_identity_passes (C : Consts) (P : Platform) (device : Option ad9656_dev)
    (ip : ad9656_init_param) (w : World) (hm : P.malloc w.trace = true)
    (hid : setup_chip_id C P ip w = C.AD9656_CHIP_ID) :
    ad9656_setup C P device ip w =
      if setup_pll_stat C P ip w &&& 0x80 ≠ 0x80 then
        { ret := -1, device := some (setup_dev P ip w),
          world :=
            { trace := w.trace ++ setup_events C (setup_dev P ip w) ip,
              stdout := w.stdout ++ [("AD9656: PLL is NOT locked!\n", none)] } }
      else
        { ret := setup_open_status P ip w, device := some (setup_dev P ip w),
          world :=
            { trace := w.trace ++ setup_events C (setup_dev P ip w) ip,
              stdout := w.stdout } } := by
  simp only [setup_chip_id, setup_dev] at hid
  by_cases hl : ip.lane_rate_kbps < 2000000 <;>
  simp [ad9656_setup, hm, World.log, World.print, spi_read_world, spi_read_reg_data,
    spi_write_world, mdelay, setup_events, setup_events_identity, setup_events_config,
    setup_pll_stat, setup_open_status, setup_dev, hid, hl]

/-- C5: when the allocation succeeds and the transport answers the
chip-identity read with a byte different from `AD9656_CHIP_ID`,
`ad9656_setup` returns `-1`, leaves the caller's `*device` as it was, and its
last platform call is the identity read: no transaction and no delay follow
it. -/
theorem setup_identity_mismatch (C : Consts) (P : Platform)
    (device : Option ad9656_dev) (ip : ad9656_init_param) (w : World)
    (hm : P.malloc w.trace = true)
    (hid : setup_chip_id C P ip w ≠ C.AD9656_CHIP_ID) :
    (ad9656_setup C P device ip w).ret = -1 ∧
      (ad9656_setup C P device ip w).device = device ∧
      (ad9656_setup C P device ip w).world.trace =
        w.trace ++ [Event.malloc, Event.spi_init ip.spi_init,
          read_event (setup_dev P ip w) C.AD9656_REG_CHIP_ID] := by
  rw [setup_identity_fails C P device ip w hm hid]
  exact ⟨rfl, rfl, rfl⟩

/-- C5 at a concrete input: the mock transport answers `0x55` to the identity
read, the expected identity being `0xC0`. -/
theorem setup_identity_mismatch_witness :
    ((mockPlatform sampleConsts 0x55 0x80 0 0 0).malloc World.empty.trace = true) ∧
    (setup_chip_id sampleConsts (mockPlatform sampleConsts 0x55 0x80 0 0 0)
        ⟨0, 1000000⟩ World.empty ≠ sampleConsts.AD9656_CHIP_ID) ∧
    ((ad9656_setup sampleConsts (mockPlatform sampleConsts 0x55 0x80 0 0 0) none
        ⟨0, 1000000⟩ World.empty).ret = -1 ∧
      (ad9656_setup sampleConsts (mockPlatform sampleConsts 0x55 0x80 0 0 0) none
        ⟨0, 1000000⟩ World.empty).device = none ∧
      (ad9656_setup sampleConsts (mockPlatform sampleConsts 0x55 0x80 0 0 0) none
        ⟨0, 1000000⟩ World.empty).world.trace =
        World.empty.trace ++ [Event.malloc, Event.spi_init 0,
          read_event (setup_dev (mockPlatform sampleConsts 0x55 0x80 0 0 0)
            ⟨0, 1000000⟩ World.empty) sampleConsts.AD9656_REG_CHIP_ID]) :=
  ⟨by decide, by decide,
    setup_identity_mismatch sampleConsts (mockPlatform sampleConsts 0x55 0x80 0 0 0) none
      ⟨0, 1000000⟩ World.empty (by decide) (by decide)⟩

/-- C6, as the claim states it, fails: on a transport that opens with status
`-5`, answers the chip-identity read with the expected identity and the
lock-status read with bit 7 set, `ad9656_setup` stores the handle and returns
`-5`, not `0`. -/
theorem setup_locked_counterexample :
    (mockPlatform sampleConsts 0xC0 0x80 (-5) 0 0).malloc World.empty.trace = true ∧
      setup_chip_id sampleConsts (mockPlatform sampleConsts 0xC0 0x80 (-5) 0 0)
        ⟨0, 1000000⟩ World.empty = sampleConsts.AD9656_CHIP_ID ∧
      setup_pll_stat sampleConsts (mockPlatform sampleConsts 0xC0 0x80 (-5) 0 0)
        ⟨0, 1000000⟩ World.empty &&& 0x80 = 0x80 ∧
      (ad9656_setup sampleConsts (mockPlatform sampleConsts 0xC0 0x80 (-5) 0 0) none
        ⟨0, 1000000⟩ World.empty).device = some ⟨7⟩ ∧
      (ad9656_setup sampleConsts (mockPlatform sampleConsts 0xC0 0x80 (-5) 0 0) none
        ⟨0, 1000000⟩ World.empty).ret = -5 ∧
      (ad9656_setup sampleConsts (mockPlatform sampleConsts 0xC0 0x80 (-5) 0 0) none
        ⟨0, 1000000⟩ World.empty).ret ≠ 0 := by
  decide

/-- C6, amended: when the allocation succeeds and the transport answers the
chip-identity read with `AD9656_CHIP_ID` and the lock-status read with a byte
whose bit 7 is set, `ad9656_setup` stores the handle into `*device`, prints
nothing, and returns the status `spi_init` reported: `0` when the transport
opened with status `0`. -/
theorem setup_locked (C : Consts) (P : Platform) (device : Option ad9656_dev)
    (ip : ad9656_init_param) (w : World)
    (hm : P.malloc w.trace = true)
    (hid : setup_chip_id C P ip w = C.AD9656_CHIP_ID)
    (hlock : setup_pll_stat C P ip w &&& 0x80 = 0x80) :
    (ad9656_setup C P device ip w).device = some (setup_dev P ip w) ∧
      (ad9656_setup C P device ip w).ret = setup_open_status P ip w ∧
      (setup_open_status P ip w = 0 → (ad9656_setup C P device ip w).ret = 0) ∧
      (ad9656_setup C P device ip w).world.stdout = w.stdout := by
  rw [setup_identity_passes C P device ip w hm hid]
  simp [hlock]

/-- C6, amended, at a concrete input: the mock transport opens with status
`0`, answers `0xC0` to the identity read and `0x80` to the lock-status
read. -/
theorem setup_locked_witness :
    ((mockPlatform sampleConsts 0xC0 0x80 0 0 0).malloc World.empty.trace = true) ∧
    (setup_chip_id sampleConsts (mockPlatform sampleConsts 0xC0 0x80 0 0 0)
        ⟨0, 1000000⟩ World.empty = sampleConsts.AD9656_CHIP_ID) ∧
    (setup_pll_stat sampleConsts (mockPlatform sampleConsts 0xC0 0x80 0 0 0)
        ⟨0, 1000000⟩ World.empty &&& 0x80 = 0x80) ∧
    ((ad9656_setup sampleConsts (mockPlatform sampleConsts 0xC0 0x80 0 0 0) none
        ⟨0, 1000000⟩ World.empty).device =
        some (setup_dev (mockPlatform sampleConsts 0xC0 0x80 0 0 0) ⟨0, 1000000⟩
          World.empty) ∧
      (ad9656_setup sampleConsts (mockPlatform sampleConsts 0xC0 0x80 0 0 0) none
        ⟨0, 1000000⟩ World.empty).ret =
        setup_open_status (mockPlatform sampleConsts 0xC0 0x80 0 0 0) ⟨0, 1000000⟩
          World.empty ∧
      (setup_open_status (mockPlatform sampleConsts 0xC0 0x80 0 0 0) ⟨0, 1000000⟩
          World.empty = 0 →
        (ad9656_setup sampleConsts (mockPlatform sampleConsts 0xC0 0x80 0 0 0) none
          ⟨0, 1000000⟩ World.empty).ret = 0) ∧
      (ad9656_setup sampleConsts (mockPlatform sampleConsts 0xC0 0x80 0 0 0) none
        ⟨0, 1000000⟩ World.empty).world.stdout = World.empty.stdout) :=
  ⟨by decide, by decide, by decide,
    setup_locked sampleConsts (mockPlatform sampleConsts 0xC0 0x80 0 0 0) none
      ⟨0, 1000000⟩ World.empty (by decide) (by decide) (by decide)⟩

/-- C7: when the allocation succeeds and the transport answers the
chip-identity read with `AD9656_CHIP_ID` and the lock-status read with a byte
whose bit 7 is clear, `ad9656_setup` stores the handle into `*device` and
returns `-1`, having made every platform call of the bring-up: the identity
read, the whole configuration sequence and the lock-status read. -/
theorem setup_not_locked (C : Consts) (P : Platform) (device : Option ad9656_dev)
    (ip : ad9656_init_param) (w : World)
    (hm : P.malloc w.trace = true)
    (hid : setup_chip_id C P ip w = C.AD9656_CHIP_ID)
    (hlock : setup_pll_stat C P ip w &&& 0x80 = 0) :
    (ad9656_setup C P device ip w).device = some (setup_dev P ip w) ∧
      (ad9656_setup C P device ip w).ret = -1 ∧
      (ad9656_setup C P device ip w).world.trace =
        w.trace ++ (setup_events_identity C (setup_dev P ip w) ip ++
          setup_events_config C (setup_dev P ip w) ip ++
          [read_event (setup_dev P ip w) C.AD9656_REG_JESD204B_PLL_LOCK_STATUS]) := by
  rw [setup_identity_passes C P device ip w hm hid]
  simp [hlock, setup_events]

/-- C7 at a concrete input: the mock transport answers `0xC0` to the identity
read and `0x7F`, all bits set but bit 7, to the lock-status read. -/
theorem setup_not_locked_witness :
    ((mockPlatform sampleConsts 0xC0 0x7F 0 0 0).malloc World.empty.trace = true) ∧
    (setup_chip_id sampleConsts (mockPlatform sampleConsts 0xC0 0x7F 0 0 0)
        ⟨0, 1000000⟩ World.empty = sampleConsts.AD9656_CHIP_ID) ∧
    (setup_pll_stat sampleConsts (mockPlatform sampleConsts 0xC0 0x7F 0 0 0)
        ⟨0, 1000000⟩ World.empty &&& 0x80 = 0) ∧
    ((ad9656_setup sampleConsts (mockPlatform sampleConsts 0xC0 0x7F 0 0 0) none
        ⟨0, 1000000⟩ World.empty).device =
        some (setup_dev (mockPlatform sampleConsts 0xC0 0x7F 0 0 0) ⟨0, 1000000⟩
          World.empty) ∧
      (ad9656_setup sampleConsts (mockPlatform sampleConsts 0xC0 0x7F 0 0 0) none
        ⟨0, 1000000⟩ World.empty).ret = -1 ∧
      (ad9656_setup sampleConsts (mockPlatform sampleConsts 0xC0 0x7F 0 0 0) none
        ⟨0, 1000000⟩ World.empty).world.trace =
        World.empty.trace ++
          (setup_events_identity sampleConsts
              (setup_dev (mockPlatform sampleConsts 0xC0 0x7F 0 0 0) ⟨0, 1000000⟩
                World.empty) ⟨0, 1000000⟩ ++
            setup_events_config sampleConsts
              (setup_dev (mockPlatform sampleConsts 0xC0 0x7F 0 0 0) ⟨0, 1000000⟩
                World.empty) ⟨0, 1000000⟩ ++
            [read_event
              (setup_dev (mockPlatform sampleConsts 0xC0 0x7F 0 0 0) ⟨0, 1000000⟩
                World.empty)
              sampleConsts.AD9656_REG_JESD204B_PLL_LOCK_STATUS])) :=
  ⟨by decide, by decide, by decide,
    setup_not_locked sampleConsts (mockPlatform sampleConsts 0xC0 0x7F 0 0 0) none
      ⟨0, 1000000⟩ World.empty (by decide) (by decide) (by decide)⟩

/-! ## The lane-rate write -/

theorem write_buf_take_two (a v : Nat) :
    (ad9656_spi_write_buf a v).take 2 = [(a / 256) % 256, a % 256] := by
  simp [ad9656_spi_write_buf, and_0xFF_eq_mod, Nat.shiftRight_eq_div_pow]

theorem is_write_to_write_event_self (dev : ad9656_dev) (r v : Nat) :
    is_write_to r (write_event dev r v) = true := by
  simp [is_write_to, write_event, write_buf_take_two]

theorem is_write_to_write_event_ne (dev : ad9656_dev) (l r v : Nat)
    (h : r % 65536 ≠ l % 65536) :
    is_write_to l (write_event dev r v) = false := by
  have hr : r % 65536 < 65536 := Nat.mod_lt _ (by decide)
  have hl : l % 65536 < 65536 := Nat.mod_lt _ (by decide)
  simp only [is_write_to, write_event, write_buf_take_two, beq_eq_false_iff_ne, ne_eq,
    List.cons.injEq, and_true, not_and]
  omega

theorem is_write_to_read_event (dev : ad9656_dev) (l r : Nat)
    (h : l % 65536 ≤ 0x7FFF) :
    is_write_to l (read_event dev r) = false := by
  have hr : r % 65536 < 65536 := Nat.mod_lt _ (by decide)
  have hs := shiftRight8_lt_256 hr
  have hhi := or_0x80_high_bit _ hs
  have hl : l % 65536 / 256 < 256 := by omega
  have hlo := (high_bit_clear_iff _ hl).2 (by omega)
  simp only [is_write_to, read_event, ad9656_spi_read_buf, write_buf_take_two,
    List.take_succ_cons, List.take_zero, beq_eq_false_iff_ne, ne_eq, List.cons.injEq,
    and_true, not_and]
  intro h0
  rw [h0, hlo] at hhi
  exact absurd hhi (by decide)

/-- C8: in a bring-up whose allocation succeeds and whose identity check
passes, the registers written having addresses different from that of the
lane-rate register, exactly one of the platform calls is a write to
`AD9656_REG_JESD204B_LANE_RATE_CTRL`; its value is `0x08` when
`lane_rate_kbps < 2000000` and `0x00` otherwise, so at `2000000` itself it is
`0x00`. -/
theorem setup_lane_rate_write (C : Consts) (P : Platform)
    (device : Option ad9656_dev) (ip : ad9656_init_param) (w : World)
    (hm : P.malloc w.trace = true)
    (hid : setup_chip_id C P ip w = C.AD9656_CHIP_ID)
    (hd : lane_rate_reg_distinct C) :
    (ad9656_setup C P device ip w).world.trace =
        w.trace ++ setup_events C (setup_dev P ip w) ip ∧
      (setup_events C (setup_dev P ip w) ip).filter
          (is_write_to C.AD9656_REG_JESD204B_LANE_RATE_CTRL) =
        [write_event (setup_dev P ip w) C.AD9656_REG_JESD204B_LANE_RATE_CTRL
          (if ip.lane_rate_kbps < 2000000 then 0x08 else 0x00)] ∧
      write_event (setup_dev P ip w) C.AD9656_REG_JESD204B_LANE_RATE_CTRL
          (if ip.lane_rate_kbps < 2000000 then 0x08 else 0x00) =
        Event.spi_write_and_read (setup_dev P ip w).spi_desc
          [(C.AD9656_REG_JESD204B_LANE_RATE_CTRL % 65536) >>> 8,
            (C.AD9656_REG_JESD204B_LANE_RATE_CTRL % 65536) &&& 0xFF,
            if ip.lane_rate_kbps < 2000000 then 0x08 else 0x00] 3 := by
  obtain ⟨h15, hne⟩ := hd
  simp only [List.mem_cons, List.mem_singleton, List.not_mem_nil, or_false,
    forall_eq_or_imp, forall_eq] at hne
  obtain ⟨h1, h2, h3, h4, h5, h6, h7, h8⟩ := hne
  refine ⟨?_, ?_, ?_⟩
  · rw [setup_identity_passes C P device ip w hm hid]
    split <;> rfl
  · simp only [setup_events, setup_events_identity, setup_events_config, List.cons_append,
      List.nil_append, List.filter_cons, List.filter_nil,
      is_write_to_write_event_self, is_write_to_read_event _ _ _ h15,
      is_write_to_write_event_ne _ _ _ _ h1, is_write_to_write_event_ne _ _ _ _ h2,
      is_write_to_write_event_ne _ _ _ _ h3, is_write_to_write_event_ne _ _ _ _ h4,
      is_write_to_write_event_ne _ _ _ _ h5, is_write_to_write_event_ne _ _ _ _ h6,
      is_write_to_write_event_ne _ _ _ _ h7, is_write_to_write_event_ne _ _ _ _ h8]
    simp [is_write_to]
  · have hlt : C.AD9656_REG_JESD204B_LANE_RATE_CTRL % 65536 < 65536 :=
      Nat.mod_lt _ (by decide)
    unfold write_event
    rw [write_buf_eq hlt]
    split <;> rfl

/-- C8 at a concrete input: the boundary lane rate `2000000`, for which the
value written is `0x00`. -/
theorem setup_lane_rate_write_witness :
    ((mockPlatform sampleConsts 0xC0 0x80 0 0 0).malloc World.empty.trace = true) ∧
    (setup_chip_id sampleConsts (mockPlatform sampleConsts 0xC0 0x80 0 0 0)
        ⟨0, 2000000⟩ World.empty = sampleConsts.AD9656_CHIP_ID) ∧
    (lane_rate_reg_distinct sampleConsts) ∧
    ((ad9656_setup sampleConsts (mockPlatform sampleConsts 0xC0 0x80 0 0 0) none
        ⟨0, 2000000⟩ World.empty).world.trace =
        World.empty.trace ++ setup_events sampleConsts
          (setup_dev (mockPlatform sampleConsts 0xC0 0x80 0 0 0) ⟨0, 2000000⟩
            World.empty) ⟨0, 2000000⟩ ∧
      (setup_events sampleConsts
          (setup_dev (mockPlatform sampleConsts 0xC0 0x80 0 0 0) ⟨0, 2000000⟩
            World.empty) ⟨0, 2000000⟩).filter
          (is_write_to sampleConsts.AD9656_REG_JESD204B_LANE_RATE_CTRL) =
        [write_event
          (setup_dev (mockPlatform sampleConsts 0xC0 0x80 0 0 0) ⟨0, 2000000⟩
            World.empty)
          sampleConsts.AD9656_REG_JESD204B_LANE_RATE_CTRL
          (if (ad9656_init_param.mk 0 2000000).lane_rate_kbps < 2000000 then 0x08
            else 0x00)] ∧
      write_event
          (setup_dev (mockPlatform sampleConsts 0xC0 0x80 0 0 0) ⟨0, 2000000⟩
            World.empty)
          sampleConsts.AD9656_REG_JESD204B_LANE_RATE_CTRL
          (if (ad9656_init_param.mk 0 2000000).lane_rate_kbps < 2000000 then 0x08
            else 0x00) =
        Event.spi_write_and_read
          (setup_dev (mockPlatform sampleConsts 0xC0 0x80 0 0 0) ⟨0, 2000000⟩
            World.empty).spi_desc
          [(sampleConsts.AD9656_REG_JESD204B_LANE_RATE_CTRL % 65536) >>> 8,
            (sampleConsts.AD9656_REG_JESD204B_LANE_RATE_CTRL % 65536) &&& 0xFF,
            if (ad9656_init_param.mk 0 2000000).lane_rate_kbps < 2000000 then 0x08
              else 0x00] 3) :=
  ⟨by decide, by decide, by decide,
    setup_lane_rate_write sampleConsts (mockPlatform sampleConsts 0xC0 0x80 0 0 0) none
      ⟨0, 2000000⟩ World.empty (by decide) (by decide) (by decide)⟩

/-! ## The bring-up sequence -/

/-- C9: in a bring-up whose allocation succeeds and whose identity check
passes, the platform calls are the allocation, the opening of the transport
and the identity read, followed exactly by: write `SPI_CONFIG` `0x3C`, delay
250, write `LINK_CONTROL` `0x15`, write `MF_CTRL` `0x1F`, write `M_CTRL`
`0x03`, write `CSN_CONFIG` `0x0D`, write `SUBCLASS_CONFIG` `0x2F`, write
`QUICK_CONFIG` `0x44`, write `SCR_L` `0x83`, the lane-rate write, write
`LINK_CONTROL` `0x14`, delay 250, read `PLL_LOCK_STATUS`.  The delays among
them are two, each of 250. -/
theorem setup_sequence (C : Consts) (P : Platform) (device : Option ad9656_dev)
    (ip : ad9656_init_param) (w : World)
    (hm : P.malloc w.trace = true)
    (hid : setup_chip_id C P ip w = C.AD9656_CHIP_ID) :
    (ad9656_setup C P device ip w).world.trace =
        w.trace ++
          [Event.malloc, Event.spi_init ip.spi_init,
            read_event (setup_dev P ip w) C.AD9656_REG_CHIP_ID] ++
          [write_event (setup_dev P ip w) C.AD9656_SPI_CONFIG 0x3C,
            Event.mdelay 250,
            write_event (setup_dev P ip w) C.AD9656_REG_LINK_CONTROL 0x15,
            write_event (setup_dev P ip w) C.AD9656_REG_JESD204B_MF_CTRL 0x1F,
            write_event (setup_dev P ip w) C.AD9656_REG_JESD204B_M_CTRL 0x03,
            write_event (setup_dev P ip w) C.AD9656_REG_JESD204B_CSN_CONFIG 0x0D,
            write_event (setup_dev P ip w) C.AD9656_REG_JESD204B_SUBCLASS_CONFIG 0x2F,
            write_event (setup_dev P ip w) C.AD9656_REG_JESD204B_QUICK_CONFIG 0x44,
            write_event (setup_dev P ip w) C.AD9656_REG_JESD204B_SCR_L 0x83,
            write_event (setup_dev P ip w) C.AD9656_REG_JESD204B_LANE_RATE_CTRL
              (if ip.lane_rate_kbps < 2000000 then 0x08 else 0x00),
            write_event (setup_dev P ip w) C.AD9656_REG_LINK_CONTROL 0x14,
            Event.mdelay 250,
            read_event (setup_dev P ip w) C.AD9656_REG_JESD204B_PLL_LOCK_STATUS] ∧
      ((ad9656_setup C P device ip w).world.trace.drop w.trace.length).filter is_mdelay =
        [Event.mdelay 250, Event.mdelay 250] := by
  have ht : (ad9656_setup C P device ip w).world.trace =
      w.trace ++ setup_events C (setup_dev P ip w) ip := by
    rw [setup_identity_passes C P device ip w hm hid]
    split <;> rfl
  rw [ht]
  constructor
  · simp [setup_events, setup_events_identity, setup_events_config]
  · simp [setup_events, setup_events_identity, setup_events_config, is_mdelay,
      write_event, read_event]

/-- C9 at a concrete input: lane rate `3000000` on the mock transport. -/
theorem setup_sequence_witness :
    ((mockPlatform sampleConsts 0xC0 0x80 0 0 0).malloc World.empty.trace = true) ∧
    (setup_chip_id sampleConsts (mockPlatform sampleConsts 0xC0 0x80 0 0 0)
        ⟨0, 3000000⟩ World.empty = sampleConsts.AD9656_CHIP_ID) ∧
    ((ad9656_setup sampleConsts (mockPlatform sampleConsts 0xC0 0x80 0 0 0) none
        ⟨0, 3000000⟩ World.empty).world.trace =
        [Event.malloc, Event.spi_init 0,
          Event.spi_write_and_read 7 [0x80, 0x01, 0x00] 3,
          Event.spi_write_and_read 7 [0x00, 0x00, 0x3C] 3,
          Event.mdelay 250,
          Event.spi_write_and_read 7 [0x00, 0x5F, 0x15] 3,
          Event.spi_write_and_read 7 [0x00, 0x70, 0x1F] 3,
          Event.spi_write_and_read 7 [0x00, 0x71, 0x03] 3,
          Event.spi_write_and_read 7 [0x00, 0x72, 0x0D] 3,
          Event.spi_write_and_read 7 [0x00, 0x73, 0x2F] 3,
          Event.spi_write_and_read 7 [0x00, 0x5E, 0x44] 3,
          Event.spi_write_and_read 7 [0x00, 0x6E, 0x83] 3,
          Event.spi_write_and_read 7 [0x00, 0x21, 0x00] 3,
          Event.spi_write_and_read 7 [0x00, 0x5F, 0x14] 3,
          Event.mdelay 250,
          Event.spi_write_and_read 7 [0x80, 0x0A, 0x00] 3] ∧
      ((ad9656_setup sampleConsts (mockPlatform sampleConsts 0xC0 0x80 0 0 0) none
        ⟨0, 3000000⟩ World.empty).world.trace.drop World.empty.trace.length).filter
          is_mdelay = [Event.mdelay 250, Event.mdelay 250]) :=
  ⟨by decide, by decide,
    setup_sequence sampleConsts (mockPlatform sampleConsts 0xC0 0x80 0 0 0) none
      ⟨0, 3000000⟩ World.empty (by decide) (by decide)⟩

/-! ## Test mode -/

/-- C10: for a 32-bit selector, `ad9656_test` makes exactly two platform
calls: the write of the selector to `AD9656_REG_ADC_TEST_MODE` (the call
`ad9656_spi_write (dev, AD9656_REG_ADC_TEST_MODE, test_mode)`, whose `uint8_t`
parameter receives the selector), then the write to `AD9656_REG_OUTPUT_MODE`
of `AD9656_FORMAT_2S_COMPLEMENT` if the selector equals `AD9656_TEST_OFF` and
of `AD9656_FORMAT_OFFSET_BINARY` otherwise; it returns `0` on every platform,
whatever statuses the transport reports. -/
theorem test_writes (C : Consts) (P : Platform) (dev : ad9656_dev)
    (test_mode : Nat) (w : World) (ht : test_mode < 4294967296) :
    (ad9656_test C P dev test_mode w).1 = 0 ∧
      (ad9656_test C P dev test_mode w).2.trace =
        w.trace ++
          [write_event dev C.AD9656_REG_ADC_TEST_MODE test_mode,
            write_event dev C.AD9656_REG_OUTPUT_MODE
              (if test_mode = C.AD9656_TEST_OFF then C.AD9656_FORMAT_2S_COMPLEMENT
                else C.AD9656_FORMAT_OFFSET_BINARY)] := by
  refine ⟨rfl, ?_⟩
  simp only [ad9656_test, Nat.mod_eq_of_lt ht, spi_write_world]
  split <;> simp

/-- C10 at a concrete input: selector `0x04` on a transport that reports the
status `-5` for every transaction. -/
theorem test_writes_witness :
    (0x04 < 4294967296) ∧
    ((ad9656_test sampleConsts (mockPlatform sampleConsts 0xC0 0x80 0 (-5) 0) ⟨7⟩ 0x04
        World.empty).1 = 0 ∧
      (ad9656_test sampleConsts (mockPlatform sampleConsts 0xC0 0x80 0 (-5) 0) ⟨7⟩ 0x04
        World.empty).2.trace =
        World.empty.trace ++
          [write_event ⟨7⟩ sampleConsts.AD9656_REG_ADC_TEST_MODE 0x04,
            write_event ⟨7⟩ sampleConsts.AD9656_REG_OUTPUT_MODE
              (if 0x04 = sampleConsts.AD9656_TEST_OFF then
                sampleConsts.AD9656_FORMAT_2S_COMPLEMENT
                else sampleConsts.AD9656_FORMAT_OFFSET_BINARY)]) :=
  ⟨by decide,
    test_writes sampleConsts (mockPlatform sampleConsts 0xC0 0x80 0 (-5) 0) ⟨7⟩ 0x04
      World.empty (by decide)⟩

/-! ## Release of resources -/

/-- C11: the code does not do what the claim says.  On a transport that
answers `0x55` to the identity read, the expected identity being `0xC0`,
`ad9656_setup` allocates the handle, opens the transport, reads the identity
and returns `-1` without storing the handle: its platform calls are these
three, and neither `spi_remove` nor `free` is among them. -/
theorem setup_identity_mismatch_leak :
    (ad9656_setup sampleConsts (mockPlatform sampleConsts 0x55 0x80 0 0 0) none
        ⟨0, 1000000⟩ World.empty).ret = -1 ∧
      (ad9656_setup sampleConsts (mockPlatform sampleConsts 0x55 0x80 0 0 0) none
        ⟨0, 1000000⟩ World.empty).device = none ∧
      (ad9656_setup sampleConsts (mockPlatform sampleConsts 0x55 0x80 0 0 0) none
        ⟨0, 1000000⟩ World.empty).world.trace =
        [Event.malloc, Event.spi_init 0,
          Event.spi_write_and_read 7 [0x80, 0x01, 0x00] 3] ∧
      Event.spi_remove 7 ∉
        (ad9656_setup sampleConsts (mockPlatform sampleConsts 0x55 0x80 0 0 0) none
          ⟨0, 1000000⟩ World.empty).world.trace ∧
      Event.free ∉
        (ad9656_setup sampleConsts (mockPlatform sampleConsts 0x55 0x80 0 0 0) none
          ⟨0, 1000000⟩ World.empty).world.trace := by
  decide

/-- C12: for every handle, `ad9656_remove` makes exactly two platform calls,
`spi_remove` on the descriptor of the handle and then `free`, whatever status
`spi_remove` reports, and it returns that status. -/
theorem remove_contract (P : Platform) (dev : ad9656_dev) (w : World) :
    (ad9656_remove P dev w).2.trace =
        w.trace ++ [Event.spi_remove dev.spi_desc, Event.free] ∧
      (ad9656_remove P dev w).1 = P.spi_remove w.trace dev.spi_desc := by
  simp [ad9656_remove, World.log]

/-! ## Failure of the allocation -/

/-- C15: when the allocation of the handle fails, `ad9656_setup` returns `-1`,
leaves the caller's `*device` as it was, and `malloc` is its only platform
call: the transport is not opened and no transaction or delay is issued. -/
theorem setup_alloc_failure (C : Consts) (P : Platform)
    (device : Option ad9656_dev) (ip : ad9656_init_param) (w : World)
    (hm : P.malloc w.trace = false) :
    (ad9656_setup C P device ip w).ret = -1 ∧
      (ad9656_setup C P device ip w).device = device ∧
      (ad9656_setup C P device ip w).world.trace = w.trace ++ [Event.malloc] := by
  rw [setup_alloc_fails C P device ip w hm]
  exact ⟨rfl, rfl, rfl⟩

/-- C15 at a concrete input: the platform on which the allocation fails, the
caller's `*device` holding a handle of an earlier bring-up. -/
theorem setup_alloc_failure_witness :
    ((mockPlatformNoMemory sampleConsts).malloc World.empty.trace = false) ∧
    ((ad9656_setup sampleConsts (mockPlatformNoMemory sampleConsts) (some ⟨3⟩)
        ⟨0, 1000000⟩ World.empty).ret = -1 ∧
      (ad9656_setup sampleConsts (mockPlatformNoMemory sampleConsts) (some ⟨3⟩)
        ⟨0, 1000000⟩ World.empty).device = some ⟨3⟩ ∧
      (ad9656_setup sampleConsts (mockPlatformNoMemory sampleConsts) (some ⟨3⟩)
        ⟨0, 1000000⟩ World.empty).world.trace =
        World.empty.trace ++ [Event.malloc]) :=
  ⟨by decide,
    setup_alloc_failure sampleConsts (mockPlatformNoMemory sampleConsts) (some ⟨3⟩)
      ⟨0, 1000000⟩ World.empty (by decide)⟩

/-! ## The status of the transport open -/

theorem setup_trace_of_identity_passes (C : Consts) (P : Platform)
    (device : Option ad9656_dev) (ip : ad9656_init_param) (w : World)
    (hm : P.malloc w.trace = true)
    (hid : setup_chip_id C P ip w = C.AD9656_CHIP_ID) :
    (ad9656_setup C P device ip w).world.trace =
      w.trace ++ setup_events C (setup_dev P ip w) ip := by
  rw [setup_identity_passes C P device ip w hm hid]
  split <;> rfl

/-- C13, as the claim states it, fails: on a transport that opens with status
`-5`, answers the identity read with the expected identity and the lock-status
read with bit 7 clear, `ad9656_setup` goes through the whole sequence and
returns `-1`, not `-5`. -/
theorem setup_open_error_counterexample :
    setup_open_status (mockPlatform sampleConsts 0xC0 0x00 (-5) 0 0) ⟨0, 1000000⟩
        World.empty = -5 ∧
      (ad9656_setup sampleConsts (mockPlatform sampleConsts 0xC0 0x00 (-5) 0 0) none
        ⟨0, 1000000⟩ World.empty).world.trace =
        setup_events sampleConsts ⟨7⟩ ⟨0, 1000000⟩ ∧
      (ad9656_setup sampleConsts (mockPlatform sampleConsts 0xC0 0x00 (-5) 0 0) none
        ⟨0, 1000000⟩ World.empty).ret = -1 ∧
      (ad9656_setup sampleConsts (mockPlatform sampleConsts 0xC0 0x00 (-5) 0 0) none
        ⟨0, 1000000⟩ World.empty).ret ≠
        setup_open_status (mockPlatform sampleConsts 0xC0 0x00 (-5) 0 0) ⟨0, 1000000⟩
          World.empty := by
  decide

/-- C13, amended: whatever status `spi_init` reports, `ad9656_setup` does not
abort on it: after a successful allocation it issues the chip-identity read,
and when the identity matches it makes every platform call of the bring-up.
The status of `spi_init` is the result of the bring-up when the identity
matches and bit 7 of the lock-status byte is set; when the identity does not
match or that bit is clear, the result is `-1`. -/
theorem setup_open_error (C : Consts) (P : Platform) (device : Option ad9656_dev)
    (ip : ad9656_init_param) (w : World)
    (hm : P.malloc w.trace = true) :
    (∃ rest : List Event, (ad9656_setup C P device ip w).world.trace =
        w.trace ++ [Event.malloc, Event.spi_init ip.spi_init,
          read_event (setup_dev P ip w) C.AD9656_REG_CHIP_ID] ++ rest) ∧
      (setup_chip_id C P ip w = C.AD9656_CHIP_ID →
        (ad9656_setup C P device ip w).world.trace =
          w.trace ++ setup_events C (setup_dev P ip w) ip) ∧
      (setup_chip_id C P ip w = C.AD9656_CHIP_ID →
        setup_pll_stat C P ip w &&& 0x80 = 0x80 →
        (ad9656_setup C P device ip w).ret = setup_open_status P ip w) ∧
      (setup_chip_id C P ip w ≠ C.AD9656_CHIP_ID ∨
          setup_pll_stat C P ip w &&& 0x80 ≠ 0x80 →
        (ad9656_setup C P device ip w).ret = -1) := by
  by_cases hid : setup_chip_id C P ip w = C.AD9656_CHIP_ID
  · have ht := setup_trace_of_identity_passes C P device ip w hm hid
    refine ⟨⟨setup_events_config C (setup_dev P ip w) ip ++
        [read_event (setup_dev P ip w) C.AD9656_REG_JESD204B_PLL_LOCK_STATUS], ?_⟩,
      fun _ => ht, ?_, ?_⟩
    · rw [ht]
      simp [setup_events, setup_events_identity]
    · intro _ hlock
      rw [setup_identity_passes C P device ip w hm hid]
      simp [hlock]
    · intro h
      rcases h with h | h
      · exact absurd hid h
      · rw [setup_identity_passes C P device ip w hm hid]
        simp [h]
  · have hf := setup_identity_fails C P device ip w hm hid
    refine ⟨⟨[], ?_⟩, fun h => absurd h hid, fun h => absurd h hid, fun _ => ?_⟩
    · rw [hf]
      simp [setup_events_identity]
    · rw [hf]

/-- C13, amended, at a concrete input: the mock transport opens with status
`-5`, answers `0xC0` to the identity read and `0x80` to the lock-status
read. -/
theorem setup_open_error_witness :
    ((mockPlatform sampleConsts 0xC0 0x80 (-5) 0 0).malloc World.empty.trace = true) ∧
    (setup_open_status (mockPlatform sampleConsts 0xC0 0x80 (-5) 0 0) ⟨0, 1000000⟩
        World.empty = -5) ∧
    (ad9656_setup sampleConsts (mockPlatform sampleConsts 0xC0 0x80 (-5) 0 0) none
        ⟨0, 1000000⟩ World.empty).ret = -5 ∧
    ((∃ rest : List Event,
        (ad9656_setup sampleConsts (mockPlatform sampleConsts 0xC0 0x80 (-5) 0 0) none
          ⟨0, 1000000⟩ World.empty).world.trace =
        World.empty.trace ++ [Event.malloc, Event.spi_init 0,
          read_event (setup_dev (mockPlatform sampleConsts 0xC0 0x80 (-5) 0 0)
            ⟨0, 1000000⟩ World.empty) sampleConsts.AD9656_REG_CHIP_ID] ++ rest) ∧
      (setup_chip_id sampleConsts (mockPlatform sampleConsts 0xC0 0x80 (-5) 0 0)
          ⟨0, 1000000⟩ World.empty = sampleConsts.AD9656_CHIP_ID →
        (ad9656_setup sampleConsts (mockPlatform sampleConsts 0xC0 0x80 (-5) 0 0) none
          ⟨0, 1000000⟩ World.empty).world.trace =
          World.empty.trace ++ setup_events sampleConsts
            (setup_dev (mockPlatform sampleConsts 0xC0 0x80 (-5) 0 0) ⟨0, 1000000⟩
              World.empty) ⟨0, 1000000⟩) ∧
      (setup_chip_id sampleConsts (mockPlatform sampleConsts 0xC0 0x80 (-5) 0 0)
          ⟨0, 1000000⟩ World.empty = sampleConsts.AD9656_CHIP_ID →
        setup_pll_stat sampleConsts (mockPlatform sampleConsts 0xC0 0x80 (-5) 0 0)
          ⟨0, 1000000⟩ World.empty &&& 0x80 = 0x80 →
        (ad9656_setup sampleConsts (mockPlatform sampleConsts 0xC0 0x80 (-5) 0 0) none
          ⟨0, 1000000⟩ World.empty).ret =
          setup_open_status (mockPlatform sampleConsts 0xC0 0x80 (-5) 0 0)
            ⟨0, 1000000⟩ World.empty) ∧
      (setup_chip_id sampleConsts (mockPlatform sampleConsts 0xC0 0x80 (-5) 0 0)
          ⟨0, 1000000⟩ World.empty ≠ sampleConsts.AD9656_CHIP_ID ∨
          setup_pll_stat sampleConsts (mockPlatform sampleConsts 0xC0 0x80 (-5) 0 0)
            ⟨0, 1000000⟩ World.empty &&& 0x80 ≠ 0x80 →
        (ad9656_setup sampleConsts (mockPlatform sampleConsts 0xC0 0x80 (-5) 0 0) none
          ⟨0, 1000000⟩ World.empty).ret = -1)) :=
  ⟨by decide, by decide, by decide,
    setup_open_error sampleConsts (mockPlatform sampleConsts 0xC0 0x80 (-5) 0 0) none
      ⟨0, 1000000⟩ World.empty (by decide)⟩

/-! ## Independence from the statuses of the transactions -/

theorem setup_dev_congr (P1 P2 : Platform) (ip : ad9656_init_param) (w : World)
    (hopen : P1.spi_init (w.trace ++ [Event.malloc]) ip.spi_init =
      P2.spi_init (w.trace ++ [Event.malloc]) ip.spi_init) :
    setup_dev P1 ip w = setup_dev P2 ip w ∧
      setup_open_status P1 ip w = setup_open_status P2 ip w := by
  simp [setup_dev, setup_open_status, hopen]

/-- C14: two runs of `ad9656_setup` with the same parameters, on two platforms
that give the same outcome of the allocation, the same answer of `spi_init`
and the same data bytes for the chip-identity read and the lock-status read,
have the same result, leave the same content in `*device` and make the same
platform calls, whatever statuses the two platforms report for the
transactions. -/
theorem setup_status_independent (C : Consts) (P1 P2 : Platform)
    (device : Option ad9656_dev) (ip : ad9656_init_param) (w : World)
    (hm : P1.malloc w.trace = P2.malloc w.trace)
    (hopen : P1.spi_init (w.trace ++ [Event.malloc]) ip.spi_init =
      P2.spi_init (w.trace ++ [Event.malloc]) ip.spi_init)
    (hid : setup_chip_id C P1 ip w = setup_chip_id C P2 ip w)
    (hpll : setup_pll_stat C P1 ip w = setup_pll_stat C P2 ip w) :
    (ad9656_setup C P1 device ip w).ret = (ad9656_setup C P2 device ip w).ret ∧
      (ad9656_setup C P1 device ip w).device = (ad9656_setup C P2 device ip w).device ∧
      (ad9656_setup C P1 device ip w).world = (ad9656_setup C P2 device ip w).world := by
  obtain ⟨hdev, hst⟩ := setup_dev_congr P1 P2 ip w hopen
  cases hm1 : P1.malloc w.trace with
  | false =>
    have hm2 : P2.malloc w.trace = false := by rw [← hm, hm1]
    rw [setup_alloc_fails C P1 device ip w hm1, setup_alloc_fails C P2 device ip w hm2]
    exact ⟨rfl, rfl, rfl⟩
  | true =>
    have hm2 : P2.malloc w.trace = true := by rw [← hm, hm1]
    by_cases h1 : setup_chip_id C P1 ip w = C.AD9656_CHIP_ID
    · have h2 : setup_chip_id C P2 ip w = C.AD9656_CHIP_ID := by rw [← hid, h1]
      rw [setup_identity_passes C P1 device ip w hm1 h1,
        setup_identity_passes C P2 device ip w hm2 h2, hdev, hst, hpll]
      exact ⟨rfl, rfl, rfl⟩
    · have h2 : setup_chip_id C P2 ip w ≠ C.AD9656_CHIP_ID := by rw [← hid]; exact h1
      rw [setup_identity_fails C P1 device ip w hm1 h1,
        setup_identity_fails C P2 device ip w hm2 h2, hdev, hid]
      exact ⟨rfl, rfl, rfl⟩

/-- C14 at a concrete input: one mock transport reports the status `0` for
every transaction, the other the status `-5`. -/
theorem setup_status_independent_witness :
    ((mockPlatform sampleConsts 0xC0 0x80 0 0 0).malloc World.empty.trace =
      (mockPlatform sampleConsts 0xC0 0x80 0 (-5) 0).malloc World.empty.trace) ∧
    ((mockPlatform sampleConsts 0xC0 0x80 0 0 0).spi_init
        (World.empty.trace ++ [Event.malloc]) (ad9656_init_param.mk 0 1000000).spi_init =
      (mockPlatform sampleConsts 0xC0 0x80 0 (-5) 0).spi_init
        (World.empty.trace ++ [Event.malloc]) (ad9656_init_param.mk 0 1000000).spi_init) ∧
    (setup_chip_id sampleConsts (mockPlatform sampleConsts 0xC0 0x80 0 0 0)
        ⟨0, 1000000⟩ World.empty =
      setup_chip_id sampleConsts (mockPlatform sampleConsts 0xC0 0x80 0 (-5) 0)
        ⟨0, 1000000⟩ World.empty) ∧
    (setup_pll_stat sampleConsts (mockPlatform sampleConsts 0xC0 0x80 0 0 0)
        ⟨0, 1000000⟩ World.empty =
      setup_pll_stat sampleConsts (mockPlatform sampleConsts 0xC0 0x80 0 (-5) 0)
        ⟨0, 1000000⟩ World.empty) ∧
    (((mockPlatform sampleConsts 0xC0 0x80 0 0 0).spi_write_and_read [] 7
        [0x80, 0x01, 0x00] 3).2 ≠
      ((mockPlatform sampleConsts 0xC0 0x80 0 (-5) 0).spi_write_and_read [] 7
        [0x80, 0x01, 0x00] 3).2) ∧
    ((ad9656_setup sampleConsts (mockPlatform sampleConsts 0xC0 0x80 0 0 0) none
        ⟨0, 1000000⟩ World.empty).ret =
        (ad9656_setup sampleConsts (mockPlatform sampleConsts 0xC0 0x80 0 (-5) 0) none
          ⟨0, 1000000⟩ World.empty).ret ∧
      (ad9656_setup sampleConsts (mockPlatform sampleConsts 0xC0 0x80 0 0 0) none
        ⟨0, 1000000⟩ World.empty).device =
        (ad9656_setup sampleConsts (mockPlatform sampleConsts 0xC0 0x80 0 (-5) 0) none
          ⟨0, 1000000⟩ World.empty).device ∧
      (ad9656_setup sampleConsts (mockPlatform sampleConsts 0xC0 0x80 0 0 0) none
        ⟨0, 1000000⟩ World.empty).world =
        (ad9656_setup sampleConsts (mockPlatform sampleConsts 0xC0 0x80 0 (-5) 0) none
          ⟨0, 1000000⟩ World.empty).world) :=
  ⟨by decide, by decide, by decide, by decide, by decide,
    setup_status_independent sampleConsts (mockPlatform sampleConsts 0xC0 0x80 0 0 0)
      (mockPlatform sampleConsts 0xC0 0x80 0 (-5) 0) none ⟨0, 1000000⟩ World.empty
      (by decide) (by decide) (by decide) (by decide)⟩

/-! ## Truncation of the test-mode selector -/

/-- C16: for a 32-bit selector `s`, the data byte of the write to
`AD9656_REG_ADC_TEST_MODE` is `s % 256`, while the value written to
`AD9656_REG_OUTPUT_MODE` is chosen by comparing `s` itself with
`AD9656_TEST_OFF`.  Hence, when `s` differs from `AD9656_TEST_OFF` and is
congruent to it modulo 256, the first transaction is the one that writes
`AD9656_TEST_OFF` to the test-mode register and the second writes
`AD9656_FORMAT_OFFSET_BINARY`. -/
theorem test_selector_truncated (C : Consts) (P : Platform) (dev : ad9656_dev)
    (s : Nat) (w : World) (hs : s < 4294967296) :
    (ad9656_test C P dev s w).2.trace =
        w.trace ++
          [Event.spi_write_and_read dev.spi_desc
              [(C.AD9656_REG_ADC_TEST_MODE % 65536) >>> 8,
                (C.AD9656_REG_ADC_TEST_MODE % 65536) &&& 0xFF, s % 256] 3,
            write_event dev C.AD9656_REG_OUTPUT_MODE
              (if s = C.AD9656_TEST_OFF then C.AD9656_FORMAT_2S_COMPLEMENT
                else C.AD9656_FORMAT_OFFSET_BINARY)] ∧
      (s ≠ C.AD9656_TEST_OFF → s % 256 = C.AD9656_TEST_OFF % 256 →
        (ad9656_test C P dev s w).2.trace =
          w.trace ++
            [write_event dev C.AD9656_REG_ADC_TEST_MODE C.AD9656_TEST_OFF,
              write_event dev C.AD9656_REG_OUTPUT_MODE C.AD9656_FORMAT_OFFSET_BINARY]) := by
  have hlt : C.AD9656_REG_ADC_TEST_MODE % 65536 < 65536 := Nat.mod_lt _ (by decide)
  have ht : (ad9656_test C P dev s w).2.trace =
      w.trace ++
        [write_event dev C.AD9656_REG_ADC_TEST_MODE s,
          write_event dev C.AD9656_REG_OUTPUT_MODE
            (if s = C.AD9656_TEST_OFF then C.AD9656_FORMAT_2S_COMPLEMENT
              else C.AD9656_FORMAT_OFFSET_BINARY)] := by
    simp only [ad9656_test, Nat.mod_eq_of_lt hs, spi_write_world]
    split <;> simp
  constructor
  · rw [ht]
    simp only [write_event, write_buf_eq hlt]
  · intro hne hmod
    rw [ht, if_neg hne]
    simp only [write_event, hmod]

/-- C16 at a concrete input: the selector `0x100`, with `AD9656_TEST_OFF`
equal to `0x00`; the wire carries the data byte `0x00` to the test-mode
register and `AD9656_FORMAT_OFFSET_BINARY` to the output-mode register. -/
theorem test_selector_truncated_witness :
    (0x100 < 4294967296) ∧ (0x100 ≠ sampleConsts.AD9656_TEST_OFF) ∧
    (0x100 % 256 = sampleConsts.AD9656_TEST_OFF % 256) ∧
    ((ad9656_test sampleConsts (mockPlatform sampleConsts 0xC0 0x80 0 0 0) ⟨7⟩ 0x100
        World.empty).2.trace =
        World.empty.trace ++
          [Event.spi_write_and_read (ad9656_dev.mk 7).spi_desc
              [(sampleConsts.AD9656_REG_ADC_TEST_MODE % 65536) >>> 8,
                (sampleConsts.AD9656_REG_ADC_TEST_MODE % 65536) &&& 0xFF, 0x100 % 256] 3,
            write_event ⟨7⟩ sampleConsts.AD9656_REG_OUTPUT_MODE
              (if 0x100 = sampleConsts.AD9656_TEST_OFF then
                sampleConsts.AD9656_FORMAT_2S_COMPLEMENT
                else sampleConsts.AD9656_FORMAT_OFFSET_BINARY)] ∧
      (0x100 ≠ sampleConsts.AD9656_TEST_OFF →
        0x100 % 256 = sampleConsts.AD9656_TEST_OFF % 256 →
        (ad9656_test sampleConsts (mockPlatform sampleConsts 0xC0 0x80 0 0 0) ⟨7⟩ 0x100
          World.empty).2.trace =
          World.empty.trace ++
            [write_event ⟨7⟩ sampleConsts.AD9656_REG_ADC_TEST_MODE
                sampleConsts.AD9656_TEST_OFF,
              write_event ⟨7⟩ sampleConsts.AD9656_REG_OUTPUT_MODE
                sampleConsts.AD9656_FORMAT_OFFSET_BINARY])) :=
  ⟨by decide, by decide, by decide,
    test_selector_truncated sampleConsts (mockPlatform sampleConsts 0xC0 0x80 0 0 0) ⟨7⟩
      0x100 World.empty (by decide)⟩

/-! ## No partially initialised handle -/

theorem link_enable_mem_setup_events (C : Consts) (dev : ad9656_dev)
    (ip : ad9656_init_param) :
    write_event dev C.AD9656_REG_LINK_CONTROL 0x14 ∈ setup_events C dev ip := by
  simp [setup_events, setup_events_config]

/-- C17: after a successful allocation, `ad9656_setup` stores a handle into
`*device` if and only if the byte answered to the chip-identity read equals
`AD9656_CHIP_ID`: starting from an empty `*device`, a handle is there after
the call exactly in that case, and on a mismatch `*device` is left as it was.
When the handle is stored, the run has made every platform call of the
bring-up, the link-enable write of `0x14` to `AD9656_REG_LINK_CONTROL` among
them. -/
theorem setup_handle_iff_identity (C : Consts) (P : Platform)
    (device : Option ad9656_dev) (ip : ad9656_init_param) (w : World)
    (hm : P.malloc w.trace = true) :
    ((ad9656_setup C P none ip w).device ≠ none ↔
        setup_chip_id C P ip w = C.AD9656_CHIP_ID) ∧
      (setup_chip_id C P ip w ≠ C.AD9656_CHIP_ID →
        (ad9656_setup C P device ip w).device = device) ∧
      (setup_chip_id C P ip w = C.AD9656_CHIP_ID →
        (ad9656_setup C P device ip w).device = some (setup_dev P ip w) ∧
          (ad9656_setup C P device ip w).world.trace =
            w.trace ++ setup_events C (setup_dev P ip w) ip ∧
          write_event (setup_dev P ip w) C.AD9656_REG_LINK_CONTROL 0x14 ∈
            setup_events C (setup_dev P ip w) ip) := by
  have hpass : ∀ d : Option ad9656_dev, setup_chip_id C P ip w = C.AD9656_CHIP_ID →
      (ad9656_setup C P d ip w).device = some (setup_dev P ip w) := by
    intro d hid
    rw [setup_identity_passes C P d ip w hm hid]
    split <;> rfl
  have hfail : ∀ d : Option ad9656_dev, setup_chip_id C P ip w ≠ C.AD9656_CHIP_ID →
      (ad9656_setup C P d ip w).device = d := by
    intro d hid
    rw [setup_identity_fails C P d ip w hm hid]
  refine ⟨⟨?_, ?_⟩, hfail device, ?_⟩
  · intro hne
    by_contra hid
    exact hne (hfail none hid)
  · intro hid
    rw [hpass none hid]
    exact Option.some_ne_none _
  · intro hid
    exact ⟨hpass device hid, setup_trace_of_identity_passes C P device ip w hm hid,
      link_enable_mem_setup_events C (setup_dev P ip w) ip⟩

/-- C17 at a concrete input: the mock transport answers `0xC0` to the identity
read; the caller's `*device` held the handle of an earlier bring-up. -/
theorem setup_handle_iff_identity_witness :
    ((mockPlatform sampleConsts 0xC0 0x00 0 0 0).malloc World.empty.trace = true) ∧
    (setup_chip_id sampleConsts (mockPlatform sampleConsts 0xC0 0x00 0 0 0)
        ⟨0, 1000000⟩ World.empty = sampleConsts.AD9656_CHIP_ID) ∧
    (((ad9656_setup sampleConsts (mockPlatform sampleConsts 0xC0 0x00 0 0 0) none
          ⟨0, 1000000⟩ World.empty).device ≠ none ↔
        setup_chip_id sampleConsts (mockPlatform sampleConsts 0xC0 0x00 0 0 0)
          ⟨0, 1000000⟩ World.empty = sampleConsts.AD9656_CHIP_ID) ∧
      (setup_chip_id sampleConsts (mockPlatform sampleConsts 0xC0 0x00 0 0 0)
          ⟨0, 1000000⟩ World.empty ≠ sampleConsts.AD9656_CHIP_ID →
        (ad9656_setup sampleConsts (mockPlatform sampleConsts 0xC0 0x00 0 0 0) (some ⟨3⟩)
          ⟨0, 1000000⟩ World.empty).device = some ⟨3⟩) ∧
      (setup_chip_id sampleConsts (mockPlatform sampleConsts 0xC0 0x00 0 0 0)
          ⟨0, 1000000⟩ World.empty = sampleConsts.AD9656_CHIP_ID →
        (ad9656_setup sampleConsts (mockPlatform sampleConsts 0xC0 0x00 0 0 0) (some ⟨3⟩)
          ⟨0, 1000000⟩ World.empty).device =
          some (setup_dev (mockPlatform sampleConsts 0xC0 0x00 0 0 0) ⟨0, 1000000⟩
            World.empty) ∧
          (ad9656_setup sampleConsts (mockPlatform sampleConsts 0xC0 0x00 0 0 0)
            (some ⟨3⟩) ⟨0, 1000000⟩ World.empty).world.trace =
            World.empty.trace ++ setup_events sampleConsts
              (setup_dev (mockPlatform sampleConsts 0xC0 0x00 0 0 0) ⟨0, 1000000⟩
                World.empty) ⟨0, 1000000⟩ ∧
          write_event
              (setup_dev (mockPlatform sampleConsts 0xC0 0x00 0 0 0) ⟨0, 1000000⟩
                World.empty)
              sampleConsts.AD9656_REG_LINK_CONTROL 0x14 ∈
            setup_events sampleConsts
              (setup_dev (mockPlatform sampleConsts 0xC0 0x00 0 0 0) ⟨0, 1000000⟩
                World.empty) ⟨0, 1000000⟩)) :=
  ⟨by decide, by decide,
    setup_handle_iff_identity sampleConsts (mockPlatform sampleConsts 0xC0 0x00 0 0 0)
      (some ⟨3⟩) ⟨0, 1000000⟩ World.empty (by decide)⟩

end AD9656
